import Mathlib

/-!
Verification of the session-integrity engine of the repository
(a gamified self-discipline single-page application).

The repository ships two near-duplicate variants of the same single-file
program: src/app.js (local-only variant, day keys from the local clock of
the viewer via localDayKey) and src/unnamed/part_000 (remote-account
variant, day keys from UTC via utcDayKey).  Apart from the day-key anchor
and the remote mirroring, the engine logic (hash, PRNG, leave-rule
watcher, streak ledger, challenge run state, boss/arena timers) is
identical in both files.

This development shallowly embeds that engine:
* machine integers are Nat/Int with explicit reduction mod 2^32 where
  JavaScript coerces to 32 bits (the zero-fill shift by 0, bitwise or
  with 0, and Math.imul);
* ECMAScript date arithmetic (Date.getTime, toISOString, getFullYear,
  getMonth, getDate, and parsing of day-key-plus-midnight strings) is the
  proleptic Gregorian calendar at millisecond resolution; it is embedded
  with the standard civil-from-days and days-from-civil algorithms, which
  compute exactly the ECMAScript MakeDay/YearFromTime correspondence;
* localStorage records become explicit state values threaded through the
  functions that read and write them.
-/

/-- Function pad2 from both variants: String(n).padStart(2, with a zero
fill character). -/
def pad2 (n : Nat) : String :=
  if n < 10 then ("0" ++ toString n) else toString n

/-- Zero-padding of a year to four digits, as produced by
Date.prototype.toISOString for years 0..9999 (outside that range
toISOString switches to an expanded six-digit signed form, which the
application never reaches). -/
def pad4 (n : Nat) : String :=
  if n < 10 then ("000" ++ toString n)
  else if n < 100 then ("00" ++ toString n)
  else if n < 1000 then ("0" ++ toString n)
  else toString n

/-- A proleptic-Gregorian civil date: the triple (getFullYear,
getMonth + 1, getDate) of an ECMAScript Date. -/
structure CivilDate where
  year : Int
  month : Nat
  day : Nat
deriving DecidableEq, Repr

/-- Civil date of day number z (days since 1970-01-01, the ECMAScript
epoch).  This is the standard civil-from-days algorithm and agrees with
the ECMAScript YearFromTime/MonthFromTime/DateFromTime functions on
z * 86400000 milliseconds. -/
def civilFromDays (z : Int) : CivilDate :=
  let z' := z + 719468
  let era := z'.fdiv 146097
  let doe := (z' - era * 146097).toNat
  let yoe := (doe - doe / 1460 + doe / 36524 - doe / 146096) / 365
  let y : Int := (yoe : Int) + era * 400
  let doy := doe - (365 * yoe + yoe / 4 - yoe / 100)
  let mp := (5 * doy + 2) / 153
  let d := doy - (153 * mp + 2) / 5 + 1
  let m := if mp < 10 then mp + 3 else mp - 9
  ⟨if m ≤ 2 then y + 1 else y, m, d⟩

/-- Day number (days since 1970-01-01) of a civil date: the inverse of
civilFromDays, and the value of ECMAScript MakeDay(y, m - 1, d).  Parsing
a day key with a midnight time suffix through the Date constructor yields
parsedMidnightMs below: this day number times 86400000, minus the zone
offset in effect at that local midnight (zero for the UTC-suffixed parse
of part_000; the DST-dependent local offset for the app.js parse). -/
def daysFromCivil (c : CivilDate) : Int :=
  let y : Int := if c.month ≤ 2 then c.year - 1 else c.year
  let era := y.fdiv 400
  let yoe := (y - era * 400).toNat
  let mp : Nat := if 2 < c.month then c.month - 3 else c.month + 9
  let doy := (153 * mp + 2) / 5 + c.day - 1
  let doe := yoe * 365 + yoe / 4 - yoe / 100 + doy
  era * 146097 + (doe : Int) - 719468

/-- Milliseconds in a civil day. -/
def msPerDay : Int := 24 * 3600 * 1000

/-- Function localDayKey from src/app.js lines 22-25: the local calendar
date rendered as year, dash, pad2 month, dash, pad2 day.  Here ms is the
absolute instant (milliseconds since the epoch, the value held by the
Date object) and offsetMs is the local-timezone offset of the client: the
local civil date of the instant is the civil date of ms + offsetMs in
UTC.  getFullYear is rendered by String(...), that is, without padding. -/
def localDayKey (ms offsetMs : Int) : String :=
  let c := civilFromDays ((ms + offsetMs).fdiv msPerDay)
  toString c.year ++ "-" ++ pad2 c.month ++ "-" ++ pad2 c.day

/-- Function utcDayKey from src/unnamed/part_000 lines 29-31: the first
ten characters of toISOString.  toISOString renders the UTC civil date,
so the timezone offset of the client is accepted (same signature as
localDayKey; both describe a client sitting at that offset) but has no
effect on the result.  Valid for years 0..9999, where toISOString uses
the plain four-digit-year form. -/
def utcDayKey (ms _offsetMs : Int) : String :=
  let c := civilFromDays (ms.fdiv msPerDay)
  pad4 c.year.toNat ++ "-" ++ pad2 c.month ++ "-" ++ pad2 c.day

/-- Constant 2^32, the modulus of every JavaScript 32-bit coercion
below. -/
def two32 : Nat := 4294967296

/-- One step of hash32 (both variants): xor the next UTF-16 code unit
into h, then Math.imul(h, 16777619).  Math.imul is multiplication mod
2^32 (the signed/unsigned distinction does not affect the residue). -/
def hash32Step (h : Nat) (c : Char) : Nat :=
  ((h ^^^ c.toNat) * 16777619) % two32

/-- Function hash32 (src/app.js lines 46-53, src/unnamed/part_000 lines
60-67): FNV-1a over the UTF-16 code units of the string, returned through
a final zero-fill shift by 0 (the outer reduction mod 2^32).  For the
ASCII strings the engine hashes, charCodeAt equals the Unicode code point
Char.toNat. -/
def hash32 (s : String) : Nat :=
  (s.data.foldl hash32Step 2166136261) % two32

/-- Function todaySeed (src/app.js lines 67-70, src/unnamed/part_000
lines 81-84): hash32 of the namespace yve, the day key and the salt
joined by colons.  The day key (local in app.js, UTC in part_000) is a
parameter here. -/
def todaySeed (dayKey salt : String) : Nat :=
  hash32 ("yve:" ++ dayKey ++ ":" ++ salt)

/-- One call of the closure returned by mulberry32 (both variants):
returns the new captured state a and the raw 32-bit output u whose float
value is u / 4294967296.  The bitwise-or-0 coercion, Math.imul and the
xor coercions all act as residues mod 2^32 on the unsigned
representative; the zero-fill right shift is a logical shift of that
representative. -/
def mulberry32Step (a0 : Nat) : Nat × Nat :=
  let a := (a0 + 0x6D2B79F5) % two32
  let t1 := ((a ^^^ (a >>> 15)) * (1 ||| a)) % two32
  let t2 := t1 ^^^ ((t1 + ((t1 ^^^ (t1 >>> 7)) * (61 ||| t1)) % two32) % two32)
  (a, (t2 ^^^ (t2 >>> 14)) % two32)

/-- State captured by the mulberry32(seed) closure after n calls; the
creation coerces the seed with a zero-fill shift by 0. -/
def mulberry32State (seed : Nat) : Nat → Nat
  | 0 => seed % two32
  | n + 1 => (mulberry32Step (mulberry32State seed n)).1

/-- Raw 32-bit output of the n-th call (0-based) of the mulberry32
closure; the float handed to the caller is this value divided by
4294967296. -/
def mulberry32Out (seed : Nat) (n : Nat) : Nat :=
  (mulberry32Step (mulberry32State seed n)).2

/-- List of the first n raw outputs of the mulberry32 closure. -/
def mulberry32Outs (seed : Nat) : Nat → List Nat
  | 0 => []
  | n + 1 => mulberry32Outs seed n ++ [mulberry32Out seed n]

/-- Identifier of the challenge selected for the day, the id field of
getTodaysChallenge (src/app.js lines 475-481, src/unnamed/part_000 lines
731-737): Math.floor of the first mulberry32 output float times 12, with
12 the length of DAILY_CHALLENGES in both variants, on the seed
todaySeed with salt challenge.  The float is exactly u / 2^32 and
u * 12 < 2^53, so the double arithmetic is exact and the floor is
integer division of u * 12 by 2^32. -/
def todaysChallengeId (dayKey : String) : Nat :=
  (mulberry32Out (todaySeed dayKey "challenge") 0 * 12) / two32

/-- Platform events the watcher subscribes to: visibilitychange with
document.hidden true (hidden) or false (visible), and window blur /
focus. -/
inductive VisEvent
  | hidden
  | visible
  | blur
  | focus
deriving DecidableEq

/-- Record Visibility.activeRule (both variants): type, thresholdMs,
awayStart and onTrigger.  The type tag and the identity of the onTrigger
callback play no role in the watcher arithmetic; timestamps are Date.now
milliseconds, a null awayStart is none (the source uses a truthiness
test, equivalent for the nonzero timestamps Date.now produces). -/
structure LeaveRule where
  thresholdMs : Int
  awayStart : Option Int
deriving DecidableEq, Repr

/-- Helper checkBack (src/unnamed/part_000 lines 867-873; inlined twice
in src/app.js, lines 624-632 and 642-650): on return, if an away
timestamp is recorded, compute awayMs as now minus awayStart, clear the
timestamp, and report a trigger firing with awayMs iff awayMs reaches
thresholdMs.  Returns the new rule state paired with some awayMs exactly
when onTrigger fires. -/
def checkBack (r : LeaveRule) (now : Int) : LeaveRule × Option Int :=
  match r.awayStart with
  | none => (r, none)
  | some t =>
    let awayMs := now - t
    let r' : LeaveRule := { r with awayStart := none }
    if r.thresholdMs ≤ awayMs then (r', some awayMs) else (r', none)

/-- One delivered event of initVisibilityWatcher (src/app.js lines
617-651, src/unnamed/part_000 lines 866-889) for an active rule:
* visibilitychange with document.hidden sets awayStart to Date.now
  unconditionally;
* blur sets it only when none is recorded (the truthiness guard);
* visibilitychange back to visible, and focus, run checkBack.
When no rule is active every handler returns immediately; the rule
argument here is the active rule. -/
def visStep (r : LeaveRule) (e : VisEvent) (now : Int) : LeaveRule × Option Int :=
  match e with
  | .hidden => ({ r with awayStart := some now }, none)
  | .visible => checkBack r now
  | .blur =>
    match r.awayStart with
    | none => ({ r with awayStart := some now }, none)
    | some _ => (r, none)
  | .focus => checkBack r now

/-- Instant (milliseconds since the epoch) produced by parsing a day key
with a midnight time suffix through the Date constructor: the day number
times 86400000, minus the zone offset offsetMs in effect at that local
midnight.  In the part_000 variant the suffix carries a Z, so offsetMs is
always 0; in the app.js variant offsetMs is the local offset of the
client at that date, which changes across a DST transition. -/
def parsedMidnightMs (c : CivilDate) (offsetMs : Int) : Int :=
  daysFromCivil c * msPerDay - offsetMs

/-- Gap computed by both streak functions (src/app.js lines 759-761 and
541-543, src/unnamed/part_000 lines 1005-1007 and 790-792):
Math.floor of the difference of the two parsed midnights over 86400000.
Here offT and offL are the zone offsets in effect at the parsed midnights
of today and of the stored last day; when they agree (always in
part_000, and in app.js whenever no DST change falls between the two
midnights) the gap is exactly the whole-day civil difference. -/
def diffDays (today last : CivilDate) (offT offL : Int) : Int :=
  (parsedMidnightMs today offT - parsedMidnightMs last offL).fdiv msPerDay

/-- Persisted streak ledger: the yve_streak slot read through getStreak
(a non-negative integer; setStreak clamps at 0) and the
yve_streak_last_day slot (a day-key string, none when never set).  Day
keys are carried as their civil dates: the stored string is the rendered
date, the string comparison in the code corresponds to equality of
dates, and the reparsing to parsedMidnightMs. -/
structure StreakState where
  count : Nat
  lastDay : Option CivilDate
deriving DecidableEq, Repr

/-- Streak block of completeChallenge (src/app.js lines 749-769,
src/unnamed/part_000 lines 999-1015): if the stored last day equals
today, keep everything; else if a previous day is stored, compute
diffDays from the two parsed midnights (offT and offL the offsets of
those parses), increment on a difference of one, otherwise reset to 1;
with no previous day, reset to 1; in every non-equal case store today as
the last completed day. -/
def recordCompletion (s : StreakState) (today : CivilDate) (offT offL : Int) :
    StreakState :=
  match s.lastDay with
  | none => ⟨1, some today⟩
  | some last =>
    if last = today then s
    else if diffDays today last offT offL = 1 then
      ⟨s.count + 1, some today⟩
    else
      ⟨1, some today⟩

/-- Function reconcileStreakForNewDay (src/app.js lines 533-548,
src/unnamed/part_000 lines 785-797): with no stored last day, return;
else if diffDays (computed from the two parsed midnights, offT and offL
their offsets) is at least 2, setStreak(0); the stored last day itself
is never modified. -/
def reconcileStreakForNewDay (s : StreakState) (today : CivilDate) (offT offL : Int) :
    StreakState :=
  match s.lastDay with
  | none => s
  | some last =>
    if 2 ≤ diffDays today last offT offL then
      { s with count := 0 }
    else s

/-- State field of the persisted 24h-challenge record. -/
inductive RunStatus
  | not_started
  | in_progress
  | completed
  | failed
deriving DecidableEq, Repr

/-- Record stored at the yve_today_state slot (field list of
src/unnamed/part_000; the app.js variant additionally carries a cosmetic
awaySeconds counter involved in no claim). -/
structure RunState where
  dayKey : String
  state : RunStatus
  startedAt : Option Int
  resultAt : Option Int
  challengeId : Nat
deriving DecidableEq, Repr

/-- Function getTodayChallengeState (src/app.js lines 507-525,
src/unnamed/part_000 lines 762-777): read the stored record; if none is
readable or its dayKey differs from the current day key, build the fresh
not-started record for today (challenge id freshly selected from the
seed of the day), persist it, and return it.  The result pairs the
returned record with the store content afterwards (saveJSON writes the
fresh record; on the unchanged path nothing is written). -/
def getTodayChallengeState (stored : Option RunState) (dayKey : String) :
    RunState × Option RunState :=
  match stored with
  | some s =>
    if s.dayKey = dayKey then (s, some s)
    else
      let fresh : RunState := ⟨dayKey, .not_started, none, none, todaysChallengeId dayKey⟩
      (fresh, some fresh)
  | none =>
    let fresh : RunState := ⟨dayKey, .not_started, none, none, todaysChallengeId dayKey⟩
    (fresh, some fresh)

/-- Slice of localStorage touched by the 24h challenge: the run record
and the streak ledger. -/
structure Store where
  todayState : Option RunState
  streak : StreakState
deriving DecidableEq, Repr

/-- Function completeChallenge (src/app.js lines 743-780,
src/unnamed/part_000 lines 993-1032).  Here today is the current civil
day, dayKeyStr its rendered day-key string (the one compared and stored
in the record), and offT and offL the zone offsets of the two midnight
parses in the streak block.  Reading the state may itself persist a
fresh record (day rollover inside getTodayChallengeState); when the read
state is not in_progress the function returns before any further
mutation.  Otherwise it runs the streak block (recordCompletion) and
then setTodayChallengeState with state completed and resultAt Date.now,
which re-reads the (by then current-day) record and merges the patch.
The stopLeaveRule call and the rendering and mirroring calls touch no
persisted state and are not modelled. -/
def completeChallenge (st : Store) (today : CivilDate) (dayKeyStr : String)
    (offT offL : Int) (now : Int) : Store :=
  let read := getTodayChallengeState st.todayState dayKeyStr
  let st1 : Store := { st with todayState := read.2 }
  if read.1.state = .in_progress then
    let ledger := recordCompletion st1.streak today offT offL
    let cur := (getTodayChallengeState st1.todayState dayKeyStr).1
    let rec' : RunState := { cur with state := .completed, resultAt := some now }
    { todayState := some rec', streak := ledger }
  else st1

/-- Function failChallenge (src/app.js lines 782-793,
src/unnamed/part_000 lines 1034-1053): same guard as completeChallenge;
on in_progress it patches state to failed with resultAt Date.now and
leaves the streak ledger untouched. -/
def failChallenge (st : Store) (dayKeyStr : String) (now : Int) : Store :=
  let read := getTodayChallengeState st.todayState dayKeyStr
  let st1 : Store := { st with todayState := read.2 }
  if read.1.state = .in_progress then
    let cur := (getTodayChallengeState st1.todayState dayKeyStr).1
    let rec' : RunState := { cur with state := .failed, resultAt := some now }
    { st1 with todayState := some rec' }
  else st1

/-- Function minutesToMs (both variants): m * 60 * 1000. -/
def minutesToMs (m : Nat) : Int := (m : Int) * 60 * 1000

/-- In-memory Boss session object (src/app.js lines 798-808,
src/unnamed/part_000 lines 1058-1066), restricted to the fields the
timer arithmetic touches. -/
structure BossState where
  running : Bool
  totalMs : Int
  remainingMs : Int
deriving DecidableEq, Repr

/-- Function bossSetDuration (src/app.js lines 810-816,
src/unnamed/part_000 lines 1068-1074): set both totalMs and remainingMs
to minutesToMs of the selected minutes. -/
def bossSetDuration (b : BossState) (m : Nat) : BossState :=
  { b with totalMs := minutesToMs m, remainingMs := minutesToMs m }

/-- The boss-fight onTrigger callback installed by bossStart (src/app.js
lines 873-884, src/unnamed/part_000 lines 1134-1144): healMs is
Math.floor of totalMs times 0.20 — exactly the floored division of
totalMs * 20 by 100 for the whole-minute totals the application uses,
where the double product rounds and floors to totalMs over 5 — then
remainingMs becomes Math.min(totalMs, remainingMs + healMs).  The
callback never touches the running flag and never fails the session. -/
def bossLeaveTrigger (b : BossState) : BossState :=
  let healMs := (b.totalMs * 20).fdiv 100
  { b with remainingMs := min b.totalMs (b.remainingMs + healMs) }

/-- One firing of the boss countdown interval (src/app.js lines 886-897,
src/unnamed/part_000 lines 1146-1153): if not running, return; else
decrement remainingMs by 1000, clamp at 0, and at exactly 0 run
bossVictory, whose bossStop clears the running flag (and the interval
and leave rule) without touching remainingMs. -/
def bossTick (b : BossState) : BossState :=
  if b.running then
    let r := b.remainingMs - 1000
    let r := if r < 0 then 0 else r
    { b with remainingMs := r, running := if r = 0 then false else b.running }
  else b

/-- In-memory Arena session object (src/app.js lines 972-979,
src/unnamed/part_000 lines 1247-1255), restricted to the timer
fields. -/
structure ArenaState where
  running : Bool
  totalMs : Int
  remainingMs : Int
deriving DecidableEq, Repr

/-- Function arenaSetDuration (src/app.js lines 981-987,
src/unnamed/part_000 lines 1257-1263). -/
def arenaSetDuration (a : ArenaState) (m : Nat) : ArenaState :=
  { a with totalMs := minutesToMs m, remainingMs := minutesToMs m }

/-- One firing of the arena countdown interval (src/app.js lines
1041-1051, src/unnamed/part_000 lines 1319-1326): the identical
clamp-at-0 decrement; at 0 arenaVictory stops the session. -/
def arenaTick (a : ArenaState) : ArenaState :=
  if a.running then
    let r := a.remainingMs - 1000
    let r := if r < 0 then 0 else r
    { a with remainingMs := r, running := if r = 0 then false else a.running }
  else a

/-- TimedSession invariant from the data model, for the boss session:
remainingMs lies between 0 and totalMs. -/
def BossInv (b : BossState) : Prop :=
  0 ≤ b.remainingMs ∧ b.remainingMs ≤ b.totalMs

/-- TimedSession invariant for the arena session. -/
def ArenaInv (a : ArenaState) : Prop :=
  0 ≤ a.remainingMs ∧ a.remainingMs ≤ a.totalMs

instance (b : BossState) : Decidable (BossInv b) := by
  unfold BossInv; infer_instance

instance (a : ArenaState) : Decidable (ArenaInv a) := by
  unfold ArenaInv; infer_instance

/-- Helper: pad2 always renders exactly two characters on inputs below
100 (months and days). -/
theorem pad2_all : ∀ n < 100, (pad2 n).length = 2 := by decide

/-- Helper: hypothesis form of pad2_all. -/
theorem pad2_length {n : Nat} (h : n < 100) : (pad2 n).length = 2 := pad2_all n h

/-- Helper: pad4 renders exactly four characters, checked over the four
decimal digits separately to keep the finite check shallow. -/
theorem pad4_nested : ∀ a < 10, ∀ b < 10, ∀ c < 10, ∀ d < 10,
    (pad4 (a * 1000 + b * 100 + c * 10 + d)).length = 4 := by decide

/-- Helper: pad4 always renders exactly four characters on inputs below
10000. -/
theorem pad4_length {n : Nat} (h : n < 10000) : (pad4 n).length = 4 := by
  have ha : n / 1000 < 10 := by omega
  have hb : n / 100 % 10 < 10 := Nat.mod_lt _ (by norm_num)
  have hc : n / 10 % 10 < 10 := Nat.mod_lt _ (by norm_num)
  have hd : n % 10 < 10 := Nat.mod_lt _ (by norm_num)
  have hn : n = n / 1000 * 1000 + n / 100 % 10 * 100 + n / 10 % 10 * 10 + n % 10 := by omega
  rw [hn]
  exact pad4_nested _ ha _ hb _ hc _ hd

/-- Claim C1, counterexample.  The claim is false of the repository as a
whole: the day-key function of the src/app.js variant, localDayKey, reads
the local clock of the viewer, so at the fixed instant 0 (midnight
1970-01-01 UTC) a client at UTC offset -1h obtains a different
10-character string than a client at UTC offset 0.  The key that drives
seeding, challenge selection, rollover and streaks in that variant
therefore depends on the local timezone offset. -/
theorem localDayKey_not_timezone_invariant :
    localDayKey 0 (-3600000) ≠ localDayKey 0 0 ∧
    localDayKey 0 (-3600000) = "1969-12-31" ∧
    localDayKey 0 0 = "1970-01-01" :=
  ⟨by decide, by decide, by decide⟩

/-- Claim C1, amended.  In the src/unnamed/part_000 variant the day-key
function utcDayKey is anchored to UTC: for any fixed instant it returns
the same 10-character YYYY-MM-DD string for every client regardless of
the local timezone offset of the client (the offset argument is
immaterial), and the string has exactly 10 characters whenever the UTC
year of the instant lies in 0..9999 (with two-digit-bounded month and
day, as the calendar always produces).  In the src/app.js variant the
day key is the local calendar date instead, per the counterexample. -/
theorem utcDayKey_timezone_invariant (ms o1 o2 : Int)
    (h : 0 ≤ (civilFromDays (ms.fdiv msPerDay)).year ∧
         (civilFromDays (ms.fdiv msPerDay)).year ≤ 9999 ∧
         (civilFromDays (ms.fdiv msPerDay)).month < 100 ∧
         (civilFromDays (ms.fdiv msPerDay)).day < 100) :
    utcDayKey ms o1 = utcDayKey ms o2 ∧ (utcDayKey ms o1).length = 10 := by
  obtain ⟨h1, h2, h3, h4⟩ := h
  refine ⟨rfl, ?_⟩
  unfold utcDayKey
  simp only [String.length_append]
  rw [pad4_length (by omega), pad2_length h3, pad2_length h4]
  rfl

/-- Claim C1, witness: at instant 0, clients at offsets +1h and -2h get
the same UTC day key, of length 10. -/
theorem utcDayKey_timezone_invariant_witness :
    utcDayKey 0 3600000 = utcDayKey 0 (-7200000) ∧ (utcDayKey 0 3600000).length = 10 :=
  utcDayKey_timezone_invariant 0 3600000 (-7200000) (by decide)

/-- Claim C2: when the boss-fight leave trigger fires, the remaining time
becomes min(totalMs, remainingMs + floor(0.20 * totalMs)) and the running
flag is untouched (the callback never transitions the session to a failed
state); at total 1500000 and remaining 100000 the new remaining is
400000, and at remaining 1450000 it clamps to 1500000, the session
staying in running in both cases. -/
theorem bossLeaveTrigger_heal_formula (b : BossState) :
    (bossLeaveTrigger b).remainingMs =
      min b.totalMs (b.remainingMs + (b.totalMs * 20).fdiv 100) ∧
    (bossLeaveTrigger b).running = b.running ∧
    bossLeaveTrigger ⟨true, 1500000, 100000⟩ = ⟨true, 1500000, 400000⟩ ∧
    bossLeaveTrigger ⟨true, 1500000, 1450000⟩ = ⟨true, 1500000, 1500000⟩ :=
  ⟨rfl, rfl, by decide, by decide⟩

/-- Claim C3: for an active leave rule with a recorded away timestamp,
a return event (visibilitychange back to visible, or focus) does not
invoke the trigger when the elapsed away duration is below the threshold,
invokes it exactly once with the elapsed duration when the duration
reaches the threshold, and always clears the away timestamp, so that a
second return event fires nothing. -/
theorem leaveRule_return_event_fires_once (r : LeaveRule) (t now now' : Int)
    (e e' : VisEvent) (h : r.awayStart = some t)
    (he : e = VisEvent.visible ∨ e = VisEvent.focus)
    (he' : e' = VisEvent.visible ∨ e' = VisEvent.focus) :
    (now - t < r.thresholdMs → (visStep r e now).2 = none) ∧
    (r.thresholdMs ≤ now - t → (visStep r e now).2 = some (now - t)) ∧
    (visStep r e now).1.awayStart = none ∧
    (visStep ((visStep r e now).1) e' now').2 = none := by
  rcases he with rfl | rfl <;> rcases he' with rfl | rfl <;>
    simp only [visStep, checkBack, h] <;>
    split_ifs with hth <;> simp_all

/-- Claim C3, witness: rule with threshold 15000 away since 100; the
visible event at 20100 fires once with 20000 elapsed and clears the
timestamp; a focus event at 20200 then fires nothing. -/
theorem leaveRule_return_event_fires_once_witness :
    ((20100 : Int) - 100 < (15000 : Int) →
      (visStep ⟨15000, some 100⟩ VisEvent.visible 20100).2 = none) ∧
    ((15000 : Int) ≤ (20100 : Int) - 100 →
      (visStep ⟨15000, some 100⟩ VisEvent.visible 20100).2 = some (20100 - 100)) ∧
    (visStep ⟨15000, some 100⟩ VisEvent.visible 20100).1.awayStart = none ∧
    (visStep ((visStep ⟨15000, some 100⟩ VisEvent.visible 20100).1) VisEvent.focus 20200).2 = none :=
  leaveRule_return_event_fires_once ⟨15000, some 100⟩ 100 20100 20200
    VisEvent.visible VisEvent.focus rfl (Or.inl rfl) (Or.inr rfl)

/-- Claim C4, counterexample.  The claim asserts that while an away
timestamp is recorded no subsequent hide or blur event changes it.  Both
variants guard only the blur handler; the visibilitychange-to-hidden
handler assigns Date.now unconditionally, so a hide event delivered
while the rule is already away (for instance after an earlier blur)
restarts the away timestamp: from awayStart 100, a hide at 200 leaves
awayStart 200, not 100. -/
theorem hide_event_restarts_away_timestamp :
    (visStep ⟨15000, some 100⟩ VisEvent.hidden 200).1.awayStart = some 200 ∧
    (visStep ⟨15000, some 100⟩ VisEvent.hidden 200).1.awayStart ≠ some 100 :=
  ⟨rfl, by decide⟩

/-- Claim C4, amended: while an away timestamp is recorded, a subsequent
blur event leaves the rule state unchanged and fires nothing (first blur
wins), but a subsequent hide event overwrites the away timestamp with the
current time; and a show/focus event arriving with no recorded away
timestamp leaves the rule state unchanged and fires nothing. -/
theorem visibility_redundant_events (r r0 : LeaveRule) (t now : Int)
    (h : r.awayStart = some t) (h0 : r0.awayStart = none) :
    visStep r VisEvent.blur now = (r, none) ∧
    (visStep r VisEvent.hidden now).1.awayStart = some now ∧
    visStep r0 VisEvent.visible now = (r0, none) ∧
    visStep r0 VisEvent.focus now = (r0, none) := by
  refine ⟨?_, rfl, ?_, ?_⟩ <;> simp [visStep, checkBack, h, h0]

/-- Claim C4, witness: concrete away rule (timestamp 100) and idle rule
(no timestamp) at event time 200. -/
theorem visibility_redundant_events_witness :
    visStep ⟨15000, some 100⟩ VisEvent.blur 200 = (⟨15000, some 100⟩, none) ∧
    (visStep ⟨15000, some 100⟩ VisEvent.hidden 200).1.awayStart = some 200 ∧
    visStep ⟨15000, none⟩ VisEvent.visible 200 = (⟨15000, none⟩, none) ∧
    visStep ⟨15000, none⟩ VisEvent.focus 200 = (⟨15000, none⟩, none) :=
  visibility_redundant_events ⟨15000, some 100⟩ ⟨15000, none⟩ 100 200 rfl rfl

/-- Helper: when both midnights parse with the same zone offset, the
floored millisecond gap is exactly the whole-day civil difference. -/
theorem diffDays_same_offset (today last : CivilDate) (off : Int) :
    diffDays today last off off = daysFromCivil today - daysFromCivil last := by
  unfold diffDays parsedMidnightMs
  have h : daysFromCivil today * msPerDay - off - (daysFromCivil last * msPerDay - off) =
      (daysFromCivil today - daysFromCivil last) * msPerDay := by ring
  rw [h, Int.mul_fdiv_cancel _ (by norm_num [msPerDay])]

/-- Claim C5, counterexample.  The claim asserts that a stored last
completed day exactly one whole day before D increments the count by 1.
In the app.js variant the two day keys are parsed at local midnight, and
across the spring-forward DST transition (here America/New_York,
2025-03-09 parsed at UTC-5h, 2025-03-10 parsed at UTC-4h) the parsed
difference is 23 hours, whose floored day quotient is 0, not 1 — so a
one-whole-day gap resets the count to 1 instead of incrementing 4
to 5. -/
theorem recordCompletion_dst_gap_counterexample :
    daysFromCivil ⟨2025, 3, 10⟩ - daysFromCivil ⟨2025, 3, 9⟩ = 1 ∧
    diffDays ⟨2025, 3, 10⟩ ⟨2025, 3, 9⟩ (-14400000) (-18000000) = 0 ∧
    recordCompletion ⟨4, some ⟨2025, 3, 9⟩⟩ ⟨2025, 3, 10⟩ (-14400000) (-18000000) =
      ⟨1, some ⟨2025, 3, 10⟩⟩ ∧
    recordCompletion ⟨4, some ⟨2025, 3, 9⟩⟩ ⟨2025, 3, 10⟩ (-14400000) (-18000000) ≠
      ⟨4 + 1, some ⟨2025, 3, 10⟩⟩ :=
  ⟨by decide, by decide, by decide, by decide⟩

/-- Claim C5, amended: recording a completion on day D leaves the count
unchanged when the stored last completed day equals D, increments it by
one when the gap — Math.floor of the difference of the two parsed
midnights over 86400000 — equals 1, and resets it to 1 otherwise (no
prior record, or any other gap, including zero or negative gaps);
afterwards the last completed day is always D.  Whenever the two
midnights parse with one and the same zone offset — always in the
part_000 variant, which parses in UTC, and in app.js whenever no DST
change falls between them — that gap is exactly the number of whole
civil days from the stored day to D, which yields the originally claimed
increment-on-one-whole-day rule; across an app.js DST spring-forward the
gap of a one-whole-day pair is 0 and the count resets instead (see the
counterexample). -/
theorem recordCompletion_streak_rules (s : StreakState) (today : CivilDate)
    (offT offL : Int) :
    (s.lastDay = some today → recordCompletion s today offT offL = s) ∧
    (s.lastDay = none → recordCompletion s today offT offL = ⟨1, some today⟩) ∧
    (∀ last, s.lastDay = some last → last ≠ today →
      diffDays today last offT offL = 1 →
      recordCompletion s today offT offL = ⟨s.count + 1, some today⟩) ∧
    (∀ last, s.lastDay = some last → last ≠ today →
      diffDays today last offT offL ≠ 1 →
      recordCompletion s today offT offL = ⟨1, some today⟩) ∧
    (offT = offL → ∀ last,
      diffDays today last offT offL = daysFromCivil today - daysFromCivil last) ∧
    (recordCompletion s today offT offL).lastDay = some today := by
  have bridge : offT = offL → ∀ last,
      diffDays today last offT offL = daysFromCivil today - daysFromCivil last := by
    rintro rfl last
    exact diffDays_same_offset today last offT
  refine ⟨?_, ?_, ?_, ?_, bridge, ?_⟩
  all_goals
    rcases hs : s.lastDay with _ | last <;>
      simp only [recordCompletion, hs] <;>
      (try split_ifs with h1 h2) <;> simp_all

/-- Claim C5, witness: count 4 with last completed day 2024-10-10,
completing on 2024-10-11 (one whole day, equal offsets 0 as in the UTC
variant, gap 1) increments to 5. -/
theorem recordCompletion_streak_rules_witness :
    recordCompletion ⟨4, some ⟨2024, 10, 10⟩⟩ ⟨2024, 10, 11⟩ 0 0 =
      ⟨5, some ⟨2024, 10, 11⟩⟩ :=
  (recordCompletion_streak_rules ⟨4, some ⟨2024, 10, 10⟩⟩ ⟨2024, 10, 11⟩ 0 0).2.2.1
    ⟨2024, 10, 10⟩ rfl (by decide) (by decide)

/-- Claim C6: reading the daily-challenge run state with no readable
record, or with a record whose dayKey differs from the current day key,
returns and persists the fresh record of the day: status not_started,
startedAt and resultAt null, and the freshly selected challenge id of the
day; whatever status the old record carried is discarded. -/
theorem getTodayChallengeState_rollover_fresh (stored : Option RunState) (dayKey : String)
    (h : ∀ s, stored = some s → s.dayKey ≠ dayKey) :
    getTodayChallengeState stored dayKey =
      (⟨dayKey, RunStatus.not_started, none, none, todaysChallengeId dayKey⟩,
       some ⟨dayKey, RunStatus.not_started, none, none, todaysChallengeId dayKey⟩) := by
  rcases stored with _ | s
  · rfl
  · have hne := h s rfl
    simp [getTodayChallengeState, hne]

/-- Claim C6, witness: a completed record of 2024-10-10 read on
2024-10-11 resets to the fresh not-started record with the challenge id
10 selected by the seed of 2024-10-11, also persisted. -/
theorem getTodayChallengeState_rollover_fresh_witness :
    getTodayChallengeState
        (some ⟨"2024-10-10", RunStatus.completed, some 5, some 6, 3⟩) "2024-10-11" =
      (⟨"2024-10-11", RunStatus.not_started, none, none, 10⟩,
       some ⟨"2024-10-11", RunStatus.not_started, none, none, 10⟩) := by
  have h := getTodayChallengeState_rollover_fresh
      (some ⟨"2024-10-10", RunStatus.completed, some 5, some 6, 3⟩) "2024-10-11"
      (by intro s hs; cases hs; decide)
  rw [h]
  decide

/-- Claim C7, counterexample.  The claim asserts a reset exactly when
the stored last completed day is two or more whole days behind the
current day.  In the app.js variant the parses are local midnights, and
across the spring-forward DST transition (2025-03-08 parsed at UTC-5h,
2025-03-10 parsed at UTC-4h) a two-whole-day gap parses to 47 hours,
whose floored day quotient is 1, so the real code skips the reset: the
count stays 4 instead of becoming 0. -/
theorem reconcileStreak_dst_gap_counterexample :
    daysFromCivil ⟨2025, 3, 10⟩ - daysFromCivil ⟨2025, 3, 8⟩ = 2 ∧
    diffDays ⟨2025, 3, 10⟩ ⟨2025, 3, 8⟩ (-14400000) (-18000000) = 1 ∧
    reconcileStreakForNewDay ⟨4, some ⟨2025, 3, 8⟩⟩ ⟨2025, 3, 10⟩ (-14400000) (-18000000) =
      ⟨4, some ⟨2025, 3, 8⟩⟩ ∧
    (reconcileStreakForNewDay ⟨4, some ⟨2025, 3, 8⟩⟩ ⟨2025, 3, 10⟩
      (-14400000) (-18000000)).count ≠ 0 :=
  ⟨by decide, by decide, by decide, by decide⟩

/-- Claim C7, amended: the boot-time streak reconciliation sets the
count to 0 exactly when a last completed day is stored and the gap —
Math.floor of the difference of the two parsed midnights over
86400000 — is at least 2; with a smaller gap, or with no stored last
day, the state is unchanged; the stored last day is never modified.
Whenever the two midnights parse with one and the same zone offset —
always in the part_000 variant, and in app.js whenever no DST change
falls between them — that gap is exactly the whole-day civil difference,
which yields the originally claimed reset-iff-two-or-more-days rule;
across an app.js DST spring-forward a two-whole-day pair yields gap 1
and the reset is skipped (see the counterexample). -/
theorem reconcileStreak_reset_iff_missed_day (s : StreakState) (today : CivilDate)
    (offT offL : Int) :
    (∀ last, s.lastDay = some last →
      (2 ≤ diffDays today last offT offL →
        reconcileStreakForNewDay s today offT offL = { s with count := 0 }) ∧
      (diffDays today last offT offL < 2 →
        reconcileStreakForNewDay s today offT offL = s)) ∧
    (s.lastDay = none → reconcileStreakForNewDay s today offT offL = s) ∧
    (offT = offL → ∀ last,
      diffDays today last offT offL = daysFromCivil today - daysFromCivil last) ∧
    (reconcileStreakForNewDay s today offT offL).lastDay = s.lastDay := by
  have bridge : offT = offL → ∀ last,
      diffDays today last offT offL = daysFromCivil today - daysFromCivil last := by
    rintro rfl last
    exact diffDays_same_offset today last offT
  refine ⟨?_, ?_, bridge, ?_⟩
  all_goals
    rcases hs : s.lastDay with _ | last <;>
      simp only [reconcileStreakForNewDay, hs] <;>
      (try split_ifs with h1) <;> simp_all

/-- Claim C7, witness: last completed 2024-10-08 read on 2024-10-11
(three whole days, equal offsets 0 as in the UTC variant, gap 3) resets
the count to 0 and keeps the stored day. -/
theorem reconcileStreak_reset_iff_missed_day_witness :
    reconcileStreakForNewDay ⟨4, some ⟨2024, 10, 8⟩⟩ ⟨2024, 10, 11⟩ 0 0 =
      ⟨0, some ⟨2024, 10, 8⟩⟩ :=
  ((reconcileStreak_reset_iff_missed_day ⟨4, some ⟨2024, 10, 8⟩⟩ ⟨2024, 10, 11⟩ 0 0).1
    ⟨2024, 10, 8⟩ rfl).1 (by decide)

/-- Claim C8: invoking complete (or fail) while the current-day record is
not in in_progress is a silent no-op — the streak count, the stored last
completed day, the persisted resultAt and the whole persisted store are
unchanged; moreover running complete twice in a row always equals running
it once (no second streak increment, no second resultAt change). -/
theorem completeChallenge_wrong_state_noop (st : Store) (today : CivilDate)
    (dayKeyStr : String) (offT offL offT' offL' : Int) (now now' : Int) (r : RunState)
    (h1 : st.todayState = some r) (h2 : r.dayKey = dayKeyStr) :
    (r.state ≠ RunStatus.in_progress →
      completeChallenge st today dayKeyStr offT offL now = st ∧
      failChallenge st dayKeyStr now = st) ∧
    completeChallenge (completeChallenge st today dayKeyStr offT offL now)
        today dayKeyStr offT' offL' now' =
      completeChallenge st today dayKeyStr offT offL now := by
  obtain ⟨ts, sk⟩ := st
  simp only [Store.mk.injEq] at h1 ⊢
  subst h1
  constructor
  · intro hns
    constructor <;> simp [completeChallenge, failChallenge, getTodayChallengeState, h2, hns]
  · by_cases hr : r.state = RunStatus.in_progress <;>
      simp [completeChallenge, getTodayChallengeState, h2, hr]

/-- Claim C8, witness: a store already completed for 2024-10-11 — a
second complete, and a fail, leave the store identical. -/
theorem completeChallenge_wrong_state_noop_witness :
    completeChallenge
        ⟨some ⟨"2024-10-11", RunStatus.completed, some 1, some 2, 10⟩, ⟨4, some ⟨2024, 10, 11⟩⟩⟩
        ⟨2024, 10, 11⟩ "2024-10-11" 0 0 999 =
      ⟨some ⟨"2024-10-11", RunStatus.completed, some 1, some 2, 10⟩, ⟨4, some ⟨2024, 10, 11⟩⟩⟩ ∧
    failChallenge
        ⟨some ⟨"2024-10-11", RunStatus.completed, some 1, some 2, 10⟩, ⟨4, some ⟨2024, 10, 11⟩⟩⟩
        "2024-10-11" 999 =
      ⟨some ⟨"2024-10-11", RunStatus.completed, some 1, some 2, 10⟩, ⟨4, some ⟨2024, 10, 11⟩⟩⟩ :=
  (completeChallenge_wrong_state_noop
      ⟨some ⟨"2024-10-11", RunStatus.completed, some 1, some 2, 10⟩, ⟨4, some ⟨2024, 10, 11⟩⟩⟩
      ⟨2024, 10, 11⟩ "2024-10-11" 0 0 0 0 999 998
      ⟨"2024-10-11", RunStatus.completed, some 1, some 2, 10⟩ rfl rfl).1 (by decide)

/-- Claim C9: the seed pipeline is a pure function — computing the seed
twice on the same day key and salt yields the identical value, a genuine
32-bit value (below 2^32), and the PRNG stream it seeds is identical on
identical inputs, every output being a float in the interval [0,1) (each
raw 32-bit output u is below 2^32 and the float is exactly
u / 4294967296). -/
theorem todaySeed_pipeline_deterministic (d s : String) (n k : Nat) :
    todaySeed d s = todaySeed d s ∧
    todaySeed d s < two32 ∧
    mulberry32Outs (todaySeed d s) n = mulberry32Outs (todaySeed d s) n ∧
    mulberry32Out (todaySeed d s) k < two32 ∧
    (0 : ℚ) ≤ (mulberry32Out (todaySeed d s) k : ℚ) / 4294967296 ∧
    (mulberry32Out (todaySeed d s) k : ℚ) / 4294967296 < 1 := by
  have hpos : 0 < two32 := by norm_num [two32]
  have hseed : todaySeed d s < two32 := Nat.mod_lt _ hpos
  have hout : mulberry32Out (todaySeed d s) k < two32 := Nat.mod_lt _ hpos
  refine ⟨rfl, hseed, rfl, hout, by positivity, ?_⟩
  rw [div_lt_one (by norm_num)]
  have hq : (mulberry32Out (todaySeed d s) k : ℚ) < (two32 : ℚ) := by exact_mod_cast hout
  simpa [two32] using hq

/-- Claim C10: for the boss and arena timed sessions, the invariant
0 ≤ remainingMs ≤ totalMs is established by duration selection and
preserved by every countdown tick (decrement clamped at zero) and by the
boss heal penalty (clamped at totalMs). -/
theorem timedSession_remainingMs_bounds (b : BossState) (a : ArenaState) (m : Nat)
    (hb : BossInv b) (ha : ArenaInv a) :
    BossInv (bossSetDuration b m) ∧ BossInv (bossTick b) ∧
    BossInv (bossLeaveTrigger b) ∧
    ArenaInv (arenaSetDuration a m) ∧ ArenaInv (arenaTick a) := by
  obtain ⟨hb0, hb1⟩ := hb
  obtain ⟨ha0, ha1⟩ := ha
  have htot : (0 : Int) ≤ b.totalMs := le_trans hb0 hb1
  have hheal : (0 : Int) ≤ (b.totalMs * 20).fdiv 100 :=
    Int.fdiv_nonneg (by positivity) (by norm_num)
  refine ⟨?_, ?_, ?_, ?_, ?_⟩
  · constructor <;> simp [bossSetDuration, minutesToMs]
  · unfold BossInv bossTick
    split_ifs <;> constructor <;> simp_all <;> omega
  · unfold BossInv bossLeaveTrigger
    refine ⟨le_min htot (by omega), ?_⟩
    simp [min_le_left]
  · constructor <;> simp [arenaSetDuration, minutesToMs]
  · unfold ArenaInv arenaTick
    split_ifs <;> constructor <;> simp_all <;> omega

/-- Claim C10, witness: concrete running sessions at total 1500000,
remaining 100000, selecting 25 minutes. -/
theorem timedSession_remainingMs_bounds_witness :
    BossInv (bossSetDuration ⟨true, 1500000, 100000⟩ 25) ∧
    BossInv (bossTick ⟨true, 1500000, 100000⟩) ∧
    BossInv (bossLeaveTrigger ⟨true, 1500000, 100000⟩) ∧
    ArenaInv (arenaSetDuration ⟨true, 1500000, 100000⟩ 25) ∧
    ArenaInv (arenaTick ⟨true, 1500000, 100000⟩) :=
  timedSession_remainingMs_bounds ⟨true, 1500000, 100000⟩ ⟨true, 1500000, 100000⟩ 25
    (by decide) (by decide)
